import Mathlib

/-!
# Jobly dynamic-SQL core: shallow embedding

This file embeds the query-construction core of the Jobly data-access layer:

* `sqlForPartialUpdate` (src/helpers/sql.js) — the partial-update (SET-clause) compiler;
* `Company.findAll` / `Job.findAll` (src/models/company.js, src/models/jobs.js) —
  the per-entity filter-clause builders and statement assembly;
* `Company.update` / `Job.update` — the SET-clause consumers that append the row
  identifier as the final placeholder;
* `Company.create` / `Job.create` — the duplicate pre-check and insert control flow,
  parameterised over the external store-executor's responses.

JavaScript objects whose keys are non-numeric identifiers enumerate in insertion
order, so a mapping is embedded as an association list in insertion order; the
values carried to the executor are embedded as `JSValue` (string or number; booleans
appear only as filter inputs).  JS truthiness on the string-valued filter fields
(`if (name)`) is `jsTruthyStr`; the `minEmployees > maxEmployees` comparison, which
is false whenever either side is `undefined`, is `jsNumGt`; the property-access
fallback `jsToSql[colName] || colName`, which also fires when the mapping stores the
empty string (the only falsy string), is `jsToSqlCol`.
-/

/-- A JavaScript scalar value as it reaches the query layer. -/
inductive JSValue where
  | str (s : String)
  | num (n : Int)
  | boolean (b : Bool)
deriving DecidableEq

/-- The application-level errors thrown by the embedded code
(`BadRequestError` / `NotFoundError` from src/expressError). -/
inductive JoblyError where
  | badRequest (msg : String)
  | notFound (msg : String)
deriving DecidableEq

/-- A store-level failure reported by the external query executor
(e.g. a uniqueness-constraint violation on insert). -/
inductive DbError where
  | uniqueViolation
  | otherFailure (msg : String)
deriving DecidableEq

/-- A row returned by the store, as a field-name/value mapping. -/
abbrev DbRow : Type := List (String × JSValue)

/-- The spec's `NoUpdateDataError`: the source throws `BadRequestError("No data")`. -/
def NoUpdateDataError : JoblyError := .badRequest "No data"

/-- The spec's `BadRangeError`: the source throws
`BadRequestError("minimum input can not be higher than maximum input")`. -/
def BadRangeError : JoblyError :=
  .badRequest "minimum input can not be higher than maximum input"

/-- `jsToSql[colName] || colName` — property access with JS falsy fallback:
the logical name is used when the mapping has no entry *or* stores `""`,
the only falsy string. -/
def jsToSqlCol (jsToSql : List (String × String)) (colName : String) : String :=
  match jsToSql.lookup colName with
  | some c => if c ≠ "" then c else colName
  | none => colName

/-- `sqlForPartialUpdate(dataToUpdate, jsToSql)` from src/helpers/sql.js:
`keys = Object.keys(dataToUpdate)`; throw `BadRequestError("No data")` when empty;
`cols = keys.map((colName, idx) => "<col>"=$<idx+1>)` with the column resolved via
`jsToSql[colName] || colName`; return `setCols = cols.join(", ")` and
`values = Object.values(dataToUpdate)`.  Generic in the value type, as the JS
function never inspects the values. -/
def sqlForPartialUpdate {α : Type} (dataToUpdate : List (String × α))
    (jsToSql : List (String × String)) : Except JoblyError (String × List α) :=
  let keys := dataToUpdate.map Prod.fst
  if keys.length = 0 then .error NoUpdateDataError
  else
    let cols := keys.enum.map
      (fun p => "\"" ++ jsToSqlCol jsToSql p.2 ++ "\"=$" ++ toString (p.1 + 1))
    .ok (String.intercalate ", " cols, dataToUpdate.map Prod.snd)

/-- JS truthiness of an optional string field: `undefined` and `""` are falsy. -/
def jsTruthyStr : Option String → Bool
  | some s => s ≠ ""
  | none => false

/-- JS `a > b` on two optional numbers: comparison with `undefined` is `false`. -/
def jsNumGt : Option Int → Option Int → Bool
  | some a, some b => b < a
  | _, _ => false

/-- `queryValues.push(v); queryAdders.push(pred + queryValues.length)` —
one filter predicate bound to the next placeholder slot. -/
def pushParam (st : List String × List JSValue) (pred : String) (v : JSValue) :
    List String × List JSValue :=
  let values := st.2 ++ [v]
  (st.1 ++ [pred ++ toString values.length], values)

/-- The company filter-criteria record (all members optional). -/
structure CompanyFilter where
  name : Option String
  minEmployees : Option Int
  maxEmployees : Option Int
deriving DecidableEq

/-- The job filter-criteria record; `hasEquity` arrives as an arbitrary JS value
and is compared with the literal string `"true"`. -/
structure JobFilter where
  title : Option String
  minSalary : Option Int
  hasEquity : Option JSValue
deriving DecidableEq

namespace Company

/-- The fixed SELECT template of `Company.findAll`. -/
def baseQuery : String :=
  "SELECT handle,\n                  name,\n                  description,\n                  num_employees AS \"numEmployees\",\n                  logo_url AS \"logoUrl\"\n           FROM companies"

/-- The `queryAdders` / `queryValues` arrays built by `Company.findAll`:
`if (name)` pushes `name ILIKE $k` with `%name%`; `if (minEmployees !== undefined)`
pushes `num_employees >= $k`; `if (maxEmployees !== undefined)` pushes
`num_employees <= $k`; each placeholder number is the values array's length
after the push. -/
def filterParts (f : CompanyFilter) : List String × List JSValue :=
  let st : List String × List JSValue := ([], [])
  let st :=
    match f.name with
    | some n => if n ≠ "" then pushParam st "name ILIKE $" (.str ("%" ++ n ++ "%")) else st
    | none => st
  let st :=
    match f.minEmployees with
    | some m => pushParam st "num_employees >= $" (.num m)
    | none => st
  let st :=
    match f.maxEmployees with
    | some m => pushParam st "num_employees <= $" (.num m)
    | none => st
  st

/-- `Company.findAll(filter)` up to the statement submitted to the executor:
throws when `minEmployees > maxEmployees` (JS comparison, false on `undefined`),
otherwise assembles base query, optional `WHERE` with `" AND "`-joined adders,
and `ORDER BY name`; returns the query text with the parallel value list. -/
def findAll (f : CompanyFilter) : Except JoblyError (String × List JSValue) :=
  if jsNumGt f.minEmployees f.maxEmployees then .error BadRangeError
  else
    let parts := filterParts f
    let queryString := baseQuery
    let queryString :=
      if parts.1.length > 0 then
        queryString ++ " WHERE " ++ String.intercalate " AND " parts.1
      else queryString
    let queryString := queryString ++ " ORDER BY name"
    .ok (queryString, parts.2)

/-- The inline field→column mapping of `Company.update`. -/
def jsToSqlMap : List (String × String) :=
  [("numEmployees", "num_employees"), ("logoUrl", "logo_url")]

/-- `Company.update(handle, data)` up to the statement submitted to the executor:
compiles the SET clause with `sqlForPartialUpdate`, sets
`handleVarIdx = "$" + (values.length + 1)`, interpolates only `setCols` and
`handleVarIdx` into the fixed template, and submits `[...values, handle]`. -/
def update (handle : String) (data : List (String × JSValue)) :
    Except JoblyError (String × List JSValue) :=
  match sqlForPartialUpdate data jsToSqlMap with
  | .error e => .error e
  | .ok sc =>
    let handleVarIdx := "$" ++ toString (sc.2.length + 1)
    let querySql :=
      "UPDATE companies \n                      SET " ++ sc.1 ++
      " \n                      WHERE handle = " ++ handleVarIdx ++
      " \n                      RETURNING handle, \n                                name, \n                                description, \n                                num_employees AS \"numEmployees\", \n                                logo_url AS \"logoUrl\""
    .ok (querySql, sc.2 ++ [.str handle])

/-- `Company.create`'s control flow, parameterised over the store's responses:
`dupRows` is what the pre-insert `SELECT handle ... WHERE handle = $1` returned,
`insertOutcome` what the `INSERT` round trip produced.  A non-empty `dupRows`
throws `BadRequestError("Duplicate company: <handle>")`; the insert's outcome is
returned as-is — the source has no try/catch, so a store failure on insert
propagates unmodified (`Sum.inr`). -/
def create (handle : String) (dupRows : List DbRow)
    (insertOutcome : Except DbError DbRow) : Except (JoblyError ⊕ DbError) DbRow :=
  match dupRows with
  | _ :: _ => .error (.inl (.badRequest ("Duplicate company: " ++ handle)))
  | [] =>
    match insertOutcome with
    | .ok row => .ok row
    | .error e => .error (.inr e)

end Company

namespace Job

/-- The fixed SELECT template of `Job.findAll`. -/
def baseQuery : String :=
  "SELECT title,\n                salary,\n                equity,\n                company_handle AS \"companyHandle\"\n        FROM jobs"

/-- The `queryAdders` / `queryValues` arrays built by `Job.findAll`:
`if (title)` pushes `title ILIKE $k` with `%title%`; `if (minSalary !== undefined)`
pushes `salary >= $k`; `if (hasEquity === "true")` pushes the fixed predicate
`equity > 0` with no value. -/
def filterParts (f : JobFilter) : List String × List JSValue :=
  let st : List String × List JSValue := ([], [])
  let st :=
    match f.title with
    | some t => if t ≠ "" then pushParam st "title ILIKE $" (.str ("%" ++ t ++ "%")) else st
    | none => st
  let st :=
    match f.minSalary with
    | some m => pushParam st "salary >= $" (.num m)
    | none => st
  let st :=
    if f.hasEquity = some (.str "true") then (st.1 ++ ["equity > 0"], st.2) else st
  st

/-- `Job.findAll(filter)` up to the statement submitted to the executor.
The source never throws here, so the function is total. -/
def findAll (f : JobFilter) : String × List JSValue :=
  let parts := filterParts f
  let queryString := baseQuery
  let queryString :=
    if parts.1.length > 0 then
      queryString ++ " WHERE " ++ String.intercalate " AND " parts.1
    else queryString
  let queryString := queryString ++ " ORDER BY title"
  (queryString, parts.2)

/-- The inline field→column mapping of `Job.update`. -/
def jsToSqlMap : List (String × String) :=
  [("title", "title"), ("salary", "salary"), ("equity", "equity")]

/-- `Job.update(id, data)` up to the statement submitted to the executor. -/
def update (id : Int) (data : List (String × JSValue)) :
    Except JoblyError (String × List JSValue) :=
  match sqlForPartialUpdate data jsToSqlMap with
  | .error e => .error e
  | .ok sc =>
    let idVarIdx := "$" ++ toString (sc.2.length + 1)
    let querySql :=
      "UPDATE jobs \n                    SET " ++ sc.1 ++
      " \n                    WHERE id = " ++ idVarIdx ++
      " \n                    RETURNING id, \n                            title, \n                            salary, \n                            equity, \n                            company_handle AS \"companyHandle\""
    .ok (querySql, sc.2 ++ [.num id])

/-- `Job.create`'s control flow, parameterised over the store's responses;
the duplicate message interpolates the title (`Duplicate job: <title>`).
As in `Company.create`, a store failure on insert propagates unmodified. -/
def create (title : String) (dupRows : List DbRow)
    (insertOutcome : Except DbError DbRow) : Except (JoblyError ⊕ DbError) DbRow :=
  match dupRows with
  | _ :: _ => .error (.inl (.badRequest ("Duplicate job: " ++ title)))
  | [] =>
    match insertOutcome with
    | .ok row => .ok row
    | .error e => .error (.inr e)

end Job

/-- The SET-clause text produced by `sqlForPartialUpdate` on non-empty data
(the source's `cols.join(", ")`). -/
def setColsOf {α : Type} (data : List (String × α)) (jsToSql : List (String × String)) : String :=
  String.intercalate ", " ((data.map Prod.fst).enum.map
    (fun p => "\"" ++ jsToSqlCol jsToSql p.2 ++ "\"=$" ++ toString (p.1 + 1)))

/-- The company `queryAdders` as a function of the presence pattern alone
(name truthy, minEmployees present, maxEmployees present). -/
def companyAddersOfShape (bn bmn bmx : Bool) : List String :=
  (if bn then ["name ILIKE $1"] else []) ++
  (if bmn then ["num_employees >= $" ++ toString ((if bn then (1 : Nat) else 0) + 1)] else []) ++
  (if bmx then
    ["num_employees <= $" ++
      toString ((if bn then (1 : Nat) else 0) + (if bmn then (1 : Nat) else 0) + 1)]
   else [])

/-- The job `queryAdders` as a function of the presence pattern alone
(title truthy, minSalary present, hasEquity equal to the string "true"). -/
def jobAddersOfShape (bt bms beq : Bool) : List String :=
  (if bt then ["title ILIKE $1"] else []) ++
  (if bms then ["salary >= $" ++ toString ((if bt then (1 : Nat) else 0) + 1)] else []) ++
  (if beq then ["equity > 0"] else [])

/-- Observer: does a `create` outcome surface an application-level
`BadRequestError` (the duplicate-conflict channel), as opposed to a raw store
failure or success? -/
def surfacesBadRequest : Except (JoblyError ⊕ DbError) DbRow → Bool
  | .error (.inl (.badRequest _)) => true
  | _ => false

lemma sqlForPartialUpdate_ok {α : Type} (data : List (String × α))
    (jsToSql : List (String × String)) (h : data ≠ []) :
    sqlForPartialUpdate data jsToSql = .ok (setColsOf data jsToSql, data.map Prod.snd) := by
  simp [sqlForPartialUpdate, setColsOf, h]

lemma intercalate_cons_foldl (sep : String) (l : List String) :
    ∀ a : String, String.intercalate sep (a :: l) =
      l.foldl (fun acc p => acc ++ sep ++ p) a := by
  induction l with
  | nil => intro a; rfl
  | cons b t ih =>
    intro a
    have h1 : String.intercalate sep (a :: b :: t) =
        String.intercalate sep ((a ++ sep ++ b) :: t) := rfl
    rw [h1, ih]
    rfl

lemma companyFilterParts_fst_eq (f : CompanyFilter) :
    (Company.filterParts f).1 =
      companyAddersOfShape (jsTruthyStr f.name) f.minEmployees.isSome f.maxEmployees.isSome := by
  obtain ⟨n, mn, mx⟩ := f
  cases n with
  | none => cases mn <;> cases mx <;> rfl
  | some s =>
    by_cases hs : s = ""
    · subst hs; cases mn <;> cases mx <;> rfl
    · cases mn <;> cases mx <;>
        simp [Company.filterParts, companyAddersOfShape, jsTruthyStr, pushParam, hs] <;> rfl

lemma jobFilterParts_fst_eq (f : JobFilter) :
    (Job.filterParts f).1 =
      jobAddersOfShape (jsTruthyStr f.title) f.minSalary.isSome
        (decide (f.hasEquity = some (.str "true"))) := by
  obtain ⟨t, ms, he⟩ := f
  have hcases : ∀ (st : List String × List JSValue),
      (if he = some (.str "true") then (st.1 ++ ["equity > 0"], st.2) else st).1 =
        st.1 ++ (if decide (he = some (.str "true")) then ["equity > 0"] else []) := by
    intro st
    by_cases hq : he = some (.str "true") <;> simp [hq]
  cases t with
  | none => cases ms <;> by_cases hq : he = some (.str "true") <;>
      simp [Job.filterParts, jobAddersOfShape, jsTruthyStr, pushParam, hq]
  | some s =>
    by_cases hs : s = ""
    · subst hs
      cases ms <;> by_cases hq : he = some (.str "true") <;>
        simp [Job.filterParts, jobAddersOfShape, jsTruthyStr, pushParam, hq]
    · cases ms <;> by_cases hq : he = some (.str "true") <;>
        simp [Job.filterParts, jobAddersOfShape, jsTruthyStr, pushParam, hs, hq] <;> rfl

lemma enum_map_eq_range_map {α β : Type} (l : List α) (d : α) (F : Nat → α → β) :
    l.enum.map (fun p => F p.1 p.2) =
      (List.range l.length).map (fun i => F i (l.getD i d)) := by
  apply List.ext_getElem
  · simp [List.enum_eq_enumFrom]
  · intro i h1 h2
    have hl : i < l.length := by simpa [List.enum_eq_enumFrom] using h1
    simp [List.enum_eq_enumFrom, List.getElem_enumFrom, List.getElem_range,
      List.getD_eq_getElem?_getD, List.getElem?_eq_getElem hl]

example : sqlForPartialUpdate [("firstName", "user"), ("lastName", "test")]
    [("firstName", "first_name"), ("lastName", "last_name")] =
    .ok ("\"first_name\"=$1, \"last_name\"=$2", ["user", "test"]) := by rfl

example : Company.filterParts ⟨some "x", some 3, none⟩ =
    (["name ILIKE $1", "num_employees >= $2"], [.str "%x%", .num 3]) := by decide

example : Company.findAll ⟨some "", none, none⟩ =
    .ok (Company.baseQuery ++ " ORDER BY name", []) := by rfl

example : Job.findAll ⟨none, none, some (.str "true")⟩ =
    (Job.baseQuery ++ " WHERE equity > 0 ORDER BY title", []) := by decide

/-- C1, counterexample to the claim as stated: the claim says the emitted column is
`fieldMapping`'s entry whenever the field has one (logical name only if absent), so at
`compileSet({firstName: "user"}, {firstName: ""})` it predicts the token `""=$1`; the
source's `jsToSql[colName] || colName` falls back on the falsy empty string and emits
`"firstName"=$1` instead. -/
theorem c1_counterexample :
    sqlForPartialUpdate [("firstName", "user")] [("firstName", "")] =
      .ok ("\"firstName\"=$1", ["user"]) ∧
    (("\"firstName\"=$1" : String) == "\"\"=$1") = false := by
  exact ⟨rfl, by decide⟩

/-- C1 (amended): for every non-empty partialData and every fieldMapping,
`sqlForPartialUpdate` returns the fragment that comma-joins the tokens
`"<column>"=$<i+1>` for `i = 0..N-1` over the keys in insertion order — where
`<column>` is the mapping's entry for the field, falling back to the logical field
name when the entry is absent *or the empty string* — together with exactly the
entries' values in insertion order; placeholders `$1..$N` are contiguous. -/
theorem c1_compileSet_fragment (α : Type) (data : List (String × α))
    (jsToSql : List (String × String)) (h : data ≠ []) :
    sqlForPartialUpdate data jsToSql =
      .ok (String.intercalate ", " ((List.range data.length).map (fun i =>
            "\"" ++ jsToSqlCol jsToSql ((data.map Prod.fst).getD i "") ++ "\"=$" ++
              toString (i + 1))),
          data.map Prod.snd) := by
  rw [sqlForPartialUpdate_ok data jsToSql h]
  unfold setColsOf
  rw [enum_map_eq_range_map (data.map Prod.fst) ""
    (fun i k => "\"" ++ jsToSqlCol jsToSql k ++ "\"=$" ++ toString (i + 1))]
  simp

/-- C1 witness: the claim's own end-to-end example, obtained from
`c1_compileSet_fragment` at the concrete input. -/
theorem c1_witness :
    ([("firstName", "user"), ("lastName", "test")] : List (String × String)) ≠ [] ∧
    sqlForPartialUpdate [("firstName", "user"), ("lastName", "test")]
        [("firstName", "first_name"), ("lastName", "last_name")] =
      .ok ("\"first_name\"=$1, \"last_name\"=$2", ["user", "test"]) :=
  ⟨by decide,
   c1_compileSet_fragment String [("firstName", "user"), ("lastName", "test")]
     [("firstName", "first_name"), ("lastName", "last_name")] (by decide)⟩

/-- C3: whenever both employee bounds are present and the minimum exceeds the
maximum, `Company.findAll` fails with `BadRangeError` — regardless of the name
filter or anything else — producing no statement and no store round trip. -/
theorem c3_badRange (f : CompanyFilter) (a b : Int)
    (h1 : f.minEmployees = some a) (h2 : f.maxEmployees = some b) (h3 : b < a) :
    Company.findAll f = .error BadRangeError := by
  unfold Company.findAll
  have hgt : jsNumGt f.minEmployees f.maxEmployees = true := by
    rw [h1, h2]; simpa [jsNumGt] using h3
  simp [hgt]

/-- C3 witness: the spec's end-to-end example `{minEmployees: 50, maxEmployees: 10}`,
with a name filter also present. -/
theorem c3_witness :
    Company.findAll ⟨some "x", some 50, some 10⟩ = .error BadRangeError :=
  c3_badRange ⟨some "x", some 50, some 10⟩ 50 10 rfl rfl (by decide)

/-- C4: for every fieldMapping (and every value type), calling `sqlForPartialUpdate`
with an empty partialData mapping fails with `NoUpdateDataError` and produces no
fragment. -/
theorem c4_empty_data (α : Type) (jsToSql : List (String × String)) :
    sqlForPartialUpdate ([] : List (String × α)) jsToSql = .error NoUpdateDataError := rfl

/-- C10: an empty-string substring filter is treated exactly as an absent one: for
every remaining criteria, `Company.findAll` with `name = ""` and `Job.findAll` with
`title = ""` compile identically to the criteria without the field — no predicate is
emitted and no value bound (JS truthiness), unlike the numeric lower bound where `0`
counts as present. -/
theorem c10_empty_string_filter_absent :
    (∀ mn mx : Option Int,
      Company.filterParts ⟨some "", mn, mx⟩ = Company.filterParts ⟨none, mn, mx⟩ ∧
      Company.findAll ⟨some "", mn, mx⟩ = Company.findAll ⟨none, mn, mx⟩) ∧
    (∀ (ms : Option Int) (he : Option JSValue),
      Job.filterParts ⟨some "", ms, he⟩ = Job.filterParts ⟨none, ms, he⟩ ∧
      Job.findAll ⟨some "", ms, he⟩ = Job.findAll ⟨none, ms, he⟩) := by
  constructor
  · intro mn mx
    constructor <;> rfl
  · intro ms he
    constructor <;> rfl

/-- C6: `Job.findAll` appends the fixed predicate `equity > 0` — as the last adder,
contributing no entry to the value sequence and consuming no placeholder slot — if
and only if `hasEquity` is the literal string `"true"`; any other value (absent,
`"false"`, boolean `true`, or malformed) leaves the compiled output exactly as if
the member were absent, and no error is raised (`Job.findAll` is total). -/
theorem c6_hasEquity_fixed_predicate (f : JobFilter) :
    (Job.filterParts f).1 =
      (Job.filterParts { f with hasEquity := none }).1 ++
        (if f.hasEquity = some (.str "true") then ["equity > 0"] else []) ∧
    (Job.filterParts f).2 = (Job.filterParts { f with hasEquity := none }).2 ∧
    (Job.findAll f).2 = (Job.findAll { f with hasEquity := none }).2 := by
  obtain ⟨t, ms, he⟩ := f
  have h2 : (Job.filterParts ⟨t, ms, he⟩).2 = (Job.filterParts ⟨t, ms, none⟩).2 := by
    by_cases hq : he = some (JSValue.str "true") <;> simp [Job.filterParts, hq]
  refine ⟨?_, h2, ?_⟩
  · by_cases hq : he = some (JSValue.str "true") <;> simp [Job.filterParts, hq]
  · simpa [Job.findAll] using h2

/-- C7: the numeric lower bound `0` is treated as present, not absent: with
`minEmployees = 0` (resp. `minSalary = 0`) the compiler appends the `>=` predicate at
the next placeholder slot and binds the value `0` there, and the emitted predicate
list is identical to the one for any other present value. -/
theorem c7_zero_lower_bound_present :
    (∀ (nm : Option String) (mx : Option Int),
      ((Company.filterParts ⟨nm, some 0, mx⟩).1)[if jsTruthyStr nm then 1 else 0]? =
        some ("num_employees >= $" ++ toString ((if jsTruthyStr nm then (1 : Nat) else 0) + 1)) ∧
      ((Company.filterParts ⟨nm, some 0, mx⟩).2)[if jsTruthyStr nm then 1 else 0]? =
        some (.num 0) ∧
      ∀ v : Int, (Company.filterParts ⟨nm, some 0, mx⟩).1 =
        (Company.filterParts ⟨nm, some v, mx⟩).1) ∧
    (∀ (ti : Option String) (he : Option JSValue),
      ((Job.filterParts ⟨ti, some 0, he⟩).1)[if jsTruthyStr ti then 1 else 0]? =
        some ("salary >= $" ++ toString ((if jsTruthyStr ti then (1 : Nat) else 0) + 1)) ∧
      ((Job.filterParts ⟨ti, some 0, he⟩).2)[if jsTruthyStr ti then 1 else 0]? =
        some (.num 0) ∧
      ∀ v : Int, (Job.filterParts ⟨ti, some 0, he⟩).1 =
        (Job.filterParts ⟨ti, some v, he⟩).1) := by
  constructor
  · intro nm mx
    have hadders : ∀ v : Int, (Company.filterParts ⟨nm, some 0, mx⟩).1 =
        (Company.filterParts ⟨nm, some v, mx⟩).1 := by
      intro v
      rw [companyFilterParts_fst_eq, companyFilterParts_fst_eq]
      simp
    refine ⟨?_, ?_, hadders⟩ <;>
    · cases nm with
      | none => cases mx <;> rfl
      | some s =>
        by_cases hs : s = ""
        · subst hs; cases mx <;> rfl
        · have ht : jsTruthyStr (some s) = true := by simp [jsTruthyStr, hs]
          cases mx <;> simp [ht, Company.filterParts, pushParam, hs]
  · intro ti he
    have hadders : ∀ v : Int, (Job.filterParts ⟨ti, some 0, he⟩).1 =
        (Job.filterParts ⟨ti, some v, he⟩).1 := by
      intro v
      rw [jobFilterParts_fst_eq, jobFilterParts_fst_eq]
      simp
    refine ⟨?_, ?_, hadders⟩ <;>
    · by_cases hq : he = some (JSValue.str "true") <;>
      · cases ti with
        | none => simp [Job.filterParts, pushParam, jsTruthyStr, hq]
        | some s =>
          by_cases hs : s = ""
          · subst hs; simp [Job.filterParts, pushParam, jsTruthyStr, hq]
          · have ht : jsTruthyStr (some s) = true := by simp [jsTruthyStr, hs]
            simp [ht, Job.filterParts, pushParam, hs, hq]

set_option maxRecDepth 4000 in
/-- C8: with zero predicates present the filter fragment and value sequence are
empty and the assembled statement contains no `WHERE` at all (its text has no
character `W`); with predicates present, the statement inserts ` WHERE ` followed by
the predicates, each one after the first joined to the accumulated text with
`" AND "`. -/
theorem c8_where_assembly :
    Company.findAll ⟨none, none, none⟩ = .ok (Company.baseQuery ++ " ORDER BY name", []) ∧
    Job.findAll ⟨none, none, none⟩ = (Job.baseQuery ++ " ORDER BY title", []) ∧
    (∀ c ∈ (Company.baseQuery ++ " ORDER BY name").toList, c ≠ 'W') ∧
    (∀ c ∈ (Job.baseQuery ++ " ORDER BY title").toList, c ≠ 'W') ∧
    (∀ (f : CompanyFilter) (a : String) (rest : List String),
      jsNumGt f.minEmployees f.maxEmployees = false →
      (Company.filterParts f).1 = a :: rest →
      Company.findAll f = .ok
        (Company.baseQuery ++ " WHERE " ++
          rest.foldl (fun acc p => acc ++ " AND " ++ p) a ++ " ORDER BY name",
         (Company.filterParts f).2)) ∧
    (∀ (g : JobFilter) (a : String) (rest : List String),
      (Job.filterParts g).1 = a :: rest →
      Job.findAll g =
        (Job.baseQuery ++ " WHERE " ++
          rest.foldl (fun acc p => acc ++ " AND " ++ p) a ++ " ORDER BY title",
         (Job.filterParts g).2)) := by
  refine ⟨rfl, rfl, by decide, by decide, ?_, ?_⟩
  · intro f a rest hv hparts
    simp only [Company.findAll, hv, Bool.false_eq_true, if_false, hparts,
      List.length_cons, Nat.succ_pos, if_pos, Nat.lt_irrefl]
    rw [intercalate_cons_foldl]
  · intro g a rest hparts
    simp only [Job.findAll, hparts, List.length_cons, Nat.succ_pos, if_pos]
    rw [intercalate_cons_foldl]

/-- C8 witness: a three-predicate company filter and a two-predicate job filter,
assembled with `WHERE` and `" AND "` joins, via `c8_where_assembly`. -/
theorem c8_witness :
    Company.findAll ⟨some "x", some 1, some 2⟩ = .ok
      (Company.baseQuery ++ " WHERE " ++
        (["num_employees >= $2", "num_employees <= $3"].foldl
          (fun acc p => acc ++ " AND " ++ p) "name ILIKE $1") ++ " ORDER BY name",
       [.str "%x%", .num 1, .num 2]) ∧
    Job.findAll ⟨some "j", none, some (.str "true")⟩ =
      (Job.baseQuery ++ " WHERE " ++
        (["equity > 0"].foldl (fun acc p => acc ++ " AND " ++ p) "title ILIKE $1") ++
        " ORDER BY title",
       [.str "%j%"]) :=
  ⟨c8_where_assembly.2.2.2.2.1 ⟨some "x", some 1, some 2⟩ "name ILIKE $1"
      ["num_employees >= $2", "num_employees <= $3"] (by decide) (by rfl),
   c8_where_assembly.2.2.2.2.2 ⟨some "j", none, some (.str "true")⟩ "title ILIKE $1"
      ["equity > 0"] (by rfl)⟩

set_option maxRecDepth 4000 in
/-- C2, counterexample to the claim as stated: the inputs `{name: ""}` and
`{name: "x"}` supply the same field names with different values, yet the emitted
SQL texts differ — the empty string is falsy, so its presence predicate is dropped
from the text channel.  The text channel therefore does depend on a supplied value,
not only on which field names are supplied. -/
theorem c2_counterexample :
    Company.findAll ⟨some "", none, none⟩ =
      .ok (Company.baseQuery ++ " ORDER BY name", []) ∧
    Company.findAll ⟨some "x", none, none⟩ =
      .ok (Company.baseQuery ++ " WHERE name ILIKE $1 ORDER BY name", [.str "%x%"]) ∧
    ((Company.baseQuery ++ " ORDER BY name" : String) ==
      Company.baseQuery ++ " WHERE name ILIKE $1 ORDER BY name") = false := by
  refine ⟨rfl, rfl, by decide⟩

/-- C2 (amended): the SQL text channel never carries a bound value.  `compileSet`'s
text depends only on the supplied field names; each filter builder's text depends
only on the criteria's presence pattern under the code's own tests — substring
filter truthy (non-empty) or not, numeric bound present or not, `hasEquity` equal
to the string `"true"` or not — provided both company criteria pass range
validation.  Every supplied value reaches the executor only through the parallel
value sequence. -/
theorem c2_text_noninterference :
    (∀ (α : Type) (d₁ d₂ : List (String × α)) (m : List (String × String)),
      d₁.map Prod.fst = d₂.map Prod.fst →
      Except.map Prod.fst (sqlForPartialUpdate d₁ m) =
        Except.map Prod.fst (sqlForPartialUpdate d₂ m)) ∧
    (∀ f₁ f₂ : CompanyFilter,
      jsTruthyStr f₁.name = jsTruthyStr f₂.name →
      f₁.minEmployees.isSome = f₂.minEmployees.isSome →
      f₁.maxEmployees.isSome = f₂.maxEmployees.isSome →
      jsNumGt f₁.minEmployees f₁.maxEmployees = false →
      jsNumGt f₂.minEmployees f₂.maxEmployees = false →
      Except.map Prod.fst (Company.findAll f₁) =
        Except.map Prod.fst (Company.findAll f₂)) ∧
    (∀ g₁ g₂ : JobFilter,
      jsTruthyStr g₁.title = jsTruthyStr g₂.title →
      g₁.minSalary.isSome = g₂.minSalary.isSome →
      decide (g₁.hasEquity = some (.str "true")) =
        decide (g₂.hasEquity = some (.str "true")) →
      (Job.findAll g₁).1 = (Job.findAll g₂).1) := by
  refine ⟨?_, ?_, ?_⟩
  · intro α d₁ d₂ m h
    by_cases hnil : d₁ = []
    · subst hnil
      have h2 : d₂ = [] := by simpa using h.symm
      subst h2; rfl
    · have hnil₂ : d₂ ≠ [] := by
        intro h2; subst h2; simp at h; exact hnil h
      rw [sqlForPartialUpdate_ok d₁ m hnil, sqlForPartialUpdate_ok d₂ m hnil₂]
      simp [Except.map, setColsOf, h]
  · intro f₁ f₂ h1 h2 h3 hv1 hv2
    have e1 := companyFilterParts_fst_eq f₁
    have e2 := companyFilterParts_fst_eq f₂
    simp only [Company.findAll, hv1, hv2, Bool.false_eq_true, if_false, Except.map]
    rw [e1, e2, h1, h2, h3]
  · intro g₁ g₂ h1 h2 h3
    have e1 := jobFilterParts_fst_eq g₁
    have e2 := jobFilterParts_fst_eq g₂
    simp only [Job.findAll]
    rw [e1, e2, h1, h2, h3]

/-- C2 witness: concrete instances of all three noninterference components, with
differing values and identical texts. -/
theorem c2_witness :
    Except.map Prod.fst (sqlForPartialUpdate [("a", JSValue.str "v1")] []) =
      Except.map Prod.fst (sqlForPartialUpdate [("a", JSValue.str "v2")] []) ∧
    Except.map Prod.fst (Company.findAll ⟨some "a", some 1, none⟩) =
      Except.map Prod.fst (Company.findAll ⟨some "bb", some 7, none⟩) ∧
    (Job.findAll ⟨some "a", some 0, some (.str "true")⟩).1 =
      (Job.findAll ⟨some "bb", some 9, some (.str "true")⟩).1 :=
  ⟨c2_text_noninterference.1 JSValue _ _ [] rfl,
   c2_text_noninterference.2.1 ⟨some "a", some 1, none⟩ ⟨some "bb", some 7, none⟩
     (by decide) rfl rfl (by decide) (by decide),
   c2_text_noninterference.2.2 ⟨some "a", some 0, some (.str "true")⟩
     ⟨some "bb", some 9, some (.str "true")⟩ (by decide) rfl (by decide)⟩

/-- C5, counterexample to the claim as stated: when the pre-insert duplicate check
passes (no rows) and the insert itself then fails with a store-level uniqueness
violation, `Company.create` returns the raw store failure (`Sum.inr`), which is not
the `DuplicateError` (`BadRequestError`) channel that the pre-check path produces. -/
theorem c5_counterexample :
    Company.create "c1" [] (.error .uniqueViolation) = .error (.inr .uniqueViolation) ∧
    surfacesBadRequest (Company.create "c1" [] (.error .uniqueViolation)) = false ∧
    surfacesBadRequest
      (Company.create "c1" [[("handle", .str "c1")]] (.ok [])) = true := by
  exact ⟨rfl, rfl, rfl⟩

/-- C5 (amended): only the pre-insert existence check produces the duplicate
`BadRequestError`; a store-level failure on the insert itself — including a
uniqueness violation from a concurrent create — propagates to the caller
unmodified and is never reclassified as a duplicate conflict, for both entities. -/
theorem c5_create_insert_failure_propagates :
    (∀ (handle : String) (e : DbError),
      Company.create handle [] (.error e) = .error (.inr e) ∧
      surfacesBadRequest (Company.create handle [] (.error e)) = false) ∧
    (∀ (handle : String) (r : DbRow) (rest : List DbRow) (out : Except DbError DbRow),
      Company.create handle (r :: rest) out =
        .error (.inl (.badRequest ("Duplicate company: " ++ handle)))) ∧
    (∀ (title : String) (e : DbError),
      Job.create title [] (.error e) = .error (.inr e) ∧
      surfacesBadRequest (Job.create title [] (.error e)) = false) ∧
    (∀ (title : String) (r : DbRow) (rest : List DbRow) (out : Except DbError DbRow),
      Job.create title (r :: rest) out =
        .error (.inl (.badRequest ("Duplicate job: " ++ title)))) :=
  ⟨fun _ _ => ⟨rfl, rfl⟩, fun _ _ _ _ => rfl, fun _ _ => ⟨rfl, rfl⟩, fun _ _ _ _ => rfl⟩

/-- C9: for non-empty partialData, both `update` operations submit the compiler's
values with the row identifier appended as the final bound value, and the statement
text places the identifier's placeholder at index `values.length + 1`
(so numbering stays contiguous `$1..$(N+1)`); the identifier itself never reaches
the text — the text is identical for any two identifiers. -/
theorem c9_update_appends_identifier (handle handle₂ : String) (id id₂ : Int)
    (data : List (String × JSValue)) (h : data ≠ []) :
    Company.update handle data = .ok
      ("UPDATE companies \n                      SET " ++ setColsOf data Company.jsToSqlMap ++
       " \n                      WHERE handle = " ++
       ("$" ++ toString ((data.map Prod.snd).length + 1)) ++
       " \n                      RETURNING handle, \n                                name, \n                                description, \n                                num_employees AS \"numEmployees\", \n                                logo_url AS \"logoUrl\"",
       data.map Prod.snd ++ [.str handle]) ∧
    Except.map Prod.fst (Company.update handle data) =
      Except.map Prod.fst (Company.update handle₂ data) ∧
    Job.update id data = .ok
      ("UPDATE jobs \n                    SET " ++ setColsOf data Job.jsToSqlMap ++
       " \n                    WHERE id = " ++
       ("$" ++ toString ((data.map Prod.snd).length + 1)) ++
       " \n                    RETURNING id, \n                            title, \n                            salary, \n                            equity, \n                            company_handle AS \"companyHandle\"",
       data.map Prod.snd ++ [.num id]) ∧
    Except.map Prod.fst (Job.update id data) =
      Except.map Prod.fst (Job.update id₂ data) := by
  have hc := sqlForPartialUpdate_ok data Company.jsToSqlMap h
  have hj := sqlForPartialUpdate_ok data Job.jsToSqlMap h
  refine ⟨?_, ?_, ?_, ?_⟩
  · simp [Company.update, hc]
  · simp [Company.update, hc, Except.map]
  · simp [Job.update, hj]
  · simp [Job.update, hj, Except.map]

/-- C9 witness: with one supplied field, both update statements' texts are
independent of the concrete identifier, via `c9_update_appends_identifier`. -/
theorem c9_witness :
    Except.map Prod.fst (Company.update "c1" [("name", JSValue.str "n")]) =
      Except.map Prod.fst (Company.update "c2" [("name", JSValue.str "n")]) ∧
    Except.map Prod.fst (Job.update 7 [("title", JSValue.str "t")]) =
      Except.map Prod.fst (Job.update 8 [("title", JSValue.str "t")]) :=
  ⟨(c9_update_appends_identifier "c1" "c2" 7 8 [("name", .str "n")] (by decide)).2.1,
   (c9_update_appends_identifier "c1" "c2" 7 8 [("title", .str "t")] (by decide)).2.2.2⟩
